import Mathlib

/-!
Verification of the access-gated content-delivery bot against its
natural-language specification.

The persistence layer is embedded shallowly: each keyed table or collection
becomes a function from its primary key to an optional record, each operation
of `bot/db.py` (class `Database`, SQLite backend) and `bot/db_mongo.py`
(class `MongoDatabase`, document-store backend) becomes a pure state
transformer, and the wall clock (`_now()`) is passed explicitly.  Handler
logic from `bot/handlers.py` is embedded as pure functions over these stores
together with oracles for the remote messaging transport.
-/

/-! ## Constants (bot/handlers.py) -/

def DAY_SECONDS : Int := 24 * 60 * 60

def MAX_CHANNEL_BATCH_POSTS : Int := 200

/-! ## String helpers

Python's `str.lower()` and `str.strip()`, modelled as per-character
lowercasing and whitespace trimming over the character list. -/

def strLower (s : String) : String :=
  String.mk (s.data.map Char.toLower)

def strTrim (s : String) : String :=
  String.mk
    (((s.data.dropWhile Char.isWhitespace).reverse.dropWhile
        Char.isWhitespace).reverse)

/-! ## Data model: tokens (`tokens` table / collection) -/

/-- A one-time redemption token row, as stored by both backends
(`token` itself is the store key). -/
structure TokenRec where
  created_by : Int
  created_at : Int
  used_by : Option Int
  used_at : Option Int
  grant_seconds : Int
deriving DecidableEq, Repr

/-- The token table, keyed by the unique token string (primary key /
unique index in both backends). -/
abbrev TokenStore := String → Option TokenRec

/-- `UPDATE tokens SET used_by=?, used_at=? WHERE token=? AND used_by IS NULL`
followed by `SELECT changes()`: the conditional update of
`Database.redeem_token`, returning the new table and the affected-row count. -/
def tokensConditionalUpdate (store : TokenStore) (token : String)
    (user_id now : Int) : TokenStore × Nat :=
  match store token with
  | some r =>
    if r.used_by = none then
      (fun s => if s = token then
          some { r with used_by := some user_id, used_at := some now }
        else store s, 1)
    else (store, 0)
  | none => (store, 0)

/-- `Database.redeem_token` (bot/db.py): read the row; if absent or already
used return `None`; otherwise run the conditional update and require exactly
one affected row before returning `grant_seconds`. -/
def Database.redeem_token (store : TokenStore) (token : String)
    (user_id now : Int) : Option Int × TokenStore :=
  match store token with
  | none => (none, store)
  | some r =>
    if r.used_by ≠ none then (none, store)
    else
      let grant_seconds := r.grant_seconds
      let upd := tokensConditionalUpdate store token user_id now
      if upd.2 ≠ 1 then (none, upd.1) else (some grant_seconds, upd.1)

/-- `MongoDatabase.redeem_token` (bot/db_mongo.py): a single
`find_one_and_update` with filter `{token, used_by: None}` returning the
document as it was before the update; no match yields `None`. -/
def MongoDatabase.redeem_token (store : TokenStore) (token : String)
    (user_id now : Int) : Option Int × TokenStore :=
  match store token with
  | some r =>
    if r.used_by = none then
      (some r.grant_seconds,
       fun s => if s = token then
           some { r with used_by := some user_id, used_at := some now }
         else store s)
    else (none, store)
  | none => (none, store)

/-- A sequence of redemption attempts `(user_id, now)` on one token,
each executed through `Database.redeem_token`, collecting every attempt's
return value and threading the table state. -/
def runRedeems (token : String) : TokenStore → List (Int × Int) →
    List (Option Int) × TokenStore
  | store, [] => ([], store)
  | store, a :: rest =>
    let p := Database.redeem_token store token a.1 a.2
    let q := runRedeems token p.2 rest
    (p.1 :: q.1, q.2)

/-! ## Data model: users (`users` table / collection) -/

/-- A per-user row; `user_id` is the store key. -/
structure UserRec where
  first_name : Option String
  username : Option String
  premium_until : Int
  created_at : Int
  last_seen : Int
deriving DecidableEq, Repr

abbrev UserStore := Int → Option UserRec

/-- `MongoDatabase.get_premium_until`: `premium_until` of the user's row,
0 when the row is absent (`or 0` also maps a stored 0 to 0). -/
def MongoDatabase.get_premium_until (store : UserStore) (user_id : Int) :
    Int :=
  match store user_id with
  | some r => r.premium_until
  | none => 0

/-- `Database.add_premium_seconds` (bot/db.py): read `premium_until`
(0 when absent), compute `max(current, now) + seconds`, upsert the row
(insert sets `created_at`/`last_seen` to now, update overwrites
`premium_until` and `last_seen`), and return the new expiry. -/
def Database.add_premium_seconds (store : UserStore)
    (user_id seconds now : Int) : Int × UserStore :=
  let current := match store user_id with
    | some r => r.premium_until
    | none => 0
  let new_until := max current now + seconds
  (new_until,
   fun u => if u = user_id then
       some (match store user_id with
         | some r => { r with premium_until := new_until, last_seen := now }
         | none =>
           { first_name := none, username := none, premium_until := new_until,
             created_at := now, last_seen := now })
     else store u)

/-- `MongoDatabase.add_premium_seconds` (bot/db_mongo.py): same computation
phrased through `get_premium_until` and an upsert `update_one`. -/
def MongoDatabase.add_premium_seconds (store : UserStore)
    (user_id seconds now : Int) : Int × UserStore :=
  let current := MongoDatabase.get_premium_until store user_id
  let new_until := max current now + seconds
  (new_until,
   fun u => if u = user_id then
       some (match store user_id with
         | some r => { r with premium_until := new_until, last_seen := now }
         | none =>
           { first_name := none, username := none, premium_until := new_until,
             created_at := now, last_seen := now })
     else store u)

/-! ## Data model: payment requests (`payment_requests` collection) -/

/-- A payment request document; `id` is the store key. -/
structure PaymentRequest where
  id : Int
  user_id : Int
  plan_key : String
  plan_days : Int
  amount_rs : Int
  status : String
  utr_text : Option String
  user_chat_id : Option Int
  details_msg_id : Option Int
  qr_msg_id : Option Int
  expires_at : Int
  created_at : Int
  updated_at : Int
  processed_by : Option Int
  processed_at : Option Int
deriving DecidableEq, Repr

abbrev PayStore := Int → Option PaymentRequest

/-- `MongoDatabase.get_payment_request`: plain lookup by `id`. -/
def MongoDatabase.get_payment_request (store : PayStore) (request_id : Int) :
    Option PaymentRequest :=
  store request_id

/-- `MongoDatabase.set_payment_utr`: `update_one` with filter
`status in [pending, submitted]`, setting `utr_text`, `status=submitted`
and `updated_at`; reports `modified_count > 0` (a matched document counts
as modified only when the update actually changes it). -/
def MongoDatabase.set_payment_utr (store : PayStore) (request_id : Int)
    (utr_text : String) (now : Int) : Bool × PayStore :=
  match store request_id with
  | some r =>
    if r.status = "pending" ∨ r.status = "submitted" then
      let r2 := { r with utr_text := some utr_text, status := "submitted",
                         updated_at := now }
      (!(decide (r2 = r)),
       fun i => if i = request_id then some r2 else store i)
    else (false, store)
  | none => (false, store)

/-- `MongoDatabase.expire_payment_request_if_pending`: `update_one` with
filter `status = pending` and `utr_text` null-or-empty, setting
`status=expired`; reports `modified_count > 0`. -/
def MongoDatabase.expire_payment_request_if_pending (store : PayStore)
    (request_id : Int) (now : Int) : Bool × PayStore :=
  match store request_id with
  | some r =>
    if r.status = "pending" ∧ (r.utr_text = none ∨ r.utr_text = some "") then
      let r2 := { r with status := "expired", updated_at := now }
      (!(decide (r2 = r)),
       fun i => if i = request_id then some r2 else store i)
    else (false, store)
  | none => (false, store)

/-- `MongoDatabase.approve_payment_request`: `update_one` with filter
`status in [submitted, pending]`, setting `status=processed`,
`processed_by`, `processed_at`, `updated_at`. -/
def MongoDatabase.approve_payment_request (store : PayStore)
    (request_id admin_id now : Int) : Bool × PayStore :=
  match store request_id with
  | some r =>
    if r.status = "submitted" ∨ r.status = "pending" then
      let r2 := { r with status := "processed", processed_by := some admin_id,
                         processed_at := some now, updated_at := now }
      (!(decide (r2 = r)),
       fun i => if i = request_id then some r2 else store i)
    else (false, store)
  | none => (false, store)

/-- `MongoDatabase.reject_payment_request`: like approve but sets
`status=rejected`. -/
def MongoDatabase.reject_payment_request (store : PayStore)
    (request_id admin_id now : Int) : Bool × PayStore :=
  match store request_id with
  | some r =>
    if r.status = "submitted" ∨ r.status = "pending" then
      let r2 := { r with status := "rejected", processed_by := some admin_id,
                         processed_at := some now, updated_at := now }
      (!(decide (r2 = r)),
       fun i => if i = request_id then some r2 else store i)
    else (false, store)
  | none => (false, store)

/-! ## Data model: links (`links` table / collection) -/

/-- A link row; `code` is the store key (also kept in the record, as both
backends return it in the row dict). -/
structure LinkRec where
  code : String
  target_type : String
  target_id : Int
  access : String
  created_by : Int
  created_at : Int
  last_used_at : Option Int
  uses : Int
deriving DecidableEq, Repr

abbrev LinkStore := String → Option LinkRec

/-- `Database.create_link` (bot/db.py): `INSERT OR REPLACE` keyed by `code`,
always writing `last_used_at=NULL` and `uses=0`. -/
def Database.create_link (store : LinkStore) (code target_type : String)
    (target_id : Int) (access : String) (created_by now : Int) : LinkStore :=
  fun c => if c = code then
      some { code := code, target_type := target_type, target_id := target_id,
             access := access, created_by := created_by, created_at := now,
             last_used_at := none, uses := 0 }
    else store c

/-- `MongoDatabase.create_link` (bot/db_mongo.py): upsert `update_one` by
`code`, `$set`ting every field including `last_used_at=None` and `uses=0`. -/
def MongoDatabase.create_link (store : LinkStore) (code target_type : String)
    (target_id : Int) (access : String) (created_by now : Int) : LinkStore :=
  fun c => if c = code then
      some { code := code, target_type := target_type, target_id := target_id,
             access := access, created_by := created_by, created_at := now,
             last_used_at := none, uses := 0 }
    else store c

/-- `Database.get_link`: lookup by code, `None` when absent. -/
def Database.get_link (store : LinkStore) (code : String) : Option LinkRec :=
  store code

/-- `MongoDatabase.get_link`: lookup by code, `None` when absent. -/
def MongoDatabase.get_link (store : LinkStore) (code : String) :
    Option LinkRec :=
  store code

/-- `Database.mark_link_used`: `UPDATE links SET last_used_at=now,
uses=uses+1 WHERE code=?` (no effect on a missing code). -/
def Database.mark_link_used (store : LinkStore) (code : String) (now : Int) :
    LinkStore :=
  fun c => if c = code then
      (store c).map (fun l => { l with last_used_at := some now,
                                       uses := l.uses + 1 })
    else store c

/-! ## Data model: channel batches (`channel_batches` collection) -/

/-- A channel post-range batch; `id` is the store key. -/
structure ChannelBatch where
  id : Int
  channel_id : Int
  start_msg_id : Int
  end_msg_id : Int
  created_by : Int
  created_at : Int
deriving DecidableEq, Repr

abbrev ChannelBatchStore := Int → Option ChannelBatch

/-- `MongoDatabase.create_channel_batch`: allocate the next counter id and
insert the range document; returns the new id.  The `_next_id` counter is
passed explicitly. -/
def MongoDatabase.create_channel_batch (store : ChannelBatchStore)
    (nextId created_by channel_id start_msg_id end_msg_id now : Int) :
    Int × ChannelBatchStore :=
  (nextId,
   fun i => if i = nextId then
       some { id := nextId, channel_id := channel_id,
              start_msg_id := start_msg_id, end_msg_id := end_msg_id,
              created_by := created_by, created_at := now }
     else store i)

/-- `MongoDatabase.get_channel_batch`: lookup by id. -/
def MongoDatabase.get_channel_batch (store : ChannelBatchStore)
    (batch_id : Int) : Option ChannelBatch :=
  store batch_id

/-! ## Membership gate (bot/handlers.py) -/

/-- A configured force channel as returned by `list_force_channels`
(the SQLite backend returns no `mode` key, hence the option). -/
structure ForceChannel where
  channel_id : Int
  mode : Option String
  invite_link : Option String
  title : Option String
  username : Option String
deriving DecidableEq, Repr

/-- `(ch.get("mode") or "direct").lower()`: a missing or empty mode string
means `direct`, and the mode is compared lowercased. -/
def effectiveMode (mode : Option String) : String :=
  strLower (match mode with
    | none => "direct"
    | some s => if s = "" then "direct" else s)

/-- The remote transport's behaviour for one channel during one evaluation:
the two `get_chat_member` attempts (the second is the single retry), and the
join-request fallback `_has_pending_join_request_via_api` outcome
`(found, error-classification)`. -/
structure ChannelEnv where
  member1 : Except String String
  member2 : Except String String
  requestApi : Bool × String
deriving Repr

/-- Per-channel diagnostic record built by
`_joined_all_force_channels_details`. -/
structure ChannelDetail where
  channel_id : Int
  mode : String
  joined : Bool
  request : Bool
  passed : Bool
  member_error : String
  request_api_error : String
deriving DecidableEq, Repr

/-- The `force_join_requests` cache keyed by `(channel_id, user_id)`. -/
abbrev JoinReqCache := Int → Int → Bool

/-- `MongoDatabase.has_force_join_request`: cache lookup. -/
def MongoDatabase.has_force_join_request (cache : JoinReqCache)
    (channel_id user_id : Int) : Bool :=
  cache channel_id user_id

/-- `MongoDatabase.add_force_join_request`: upsert of the cache entry. -/
def MongoDatabase.add_force_join_request (cache : JoinReqCache)
    (channel_id user_id : Int) : JoinReqCache :=
  fun c u => if c = channel_id ∧ u = user_id then true else cache c u

/-- `bot.get_chat_member` with one retry: joined iff the reported status is
neither `left` nor `kicked`; if both attempts fail the user is treated as
not joined and the failure is recorded in the diagnostic. -/
def resolveMembership (e : ChannelEnv) : Bool × String :=
  match e.member1 with
  | Except.ok st => (decide (st ≠ "left" ∧ st ≠ "kicked"), "")
  | Except.error _ =>
    match e.member2 with
    | Except.ok st => (decide (st ≠ "left" ∧ st ≠ "kicked"), "")
    | Except.error e2 => (false, "member_check_failed:" ++ e2)

/-- One iteration of the channel loop in
`_joined_all_force_channels_details`: in request mode consult the local
cache, fall back to the remote join-request lookup (caching a hit), then
check membership; pass is `(request observed) OR joined` for request mode
and `joined` for direct mode. -/
def checkChannel (cache : JoinReqCache) (env : Int → ChannelEnv)
    (user_id : Int) (ch : ForceChannel) : ChannelDetail × JoinReqCache :=
  let cid := ch.channel_id
  let mode := effectiveMode ch.mode
  if mode = "request" then
    let cached := MongoDatabase.has_force_join_request cache cid user_id
    let api := (env cid).requestApi
    let has_request := cached || api.1
    let request_api_err := if cached then "" else api.2
    let cache2 :=
      if !cached && api.1 then
        MongoDatabase.add_force_join_request cache cid user_id
      else cache
    let m := resolveMembership (env cid)
    let passed := has_request || m.1
    ({ channel_id := cid, mode := mode, joined := m.1, request := has_request,
       passed := passed, member_error := m.2,
       request_api_error := request_api_err }, cache2)
  else
    let m := resolveMembership (env cid)
    ({ channel_id := cid, mode := mode, joined := m.1, request := false,
       passed := m.1, member_error := m.2, request_api_error := "" }, cache)

/-- `_joined_all_force_channels_details`: empty channel list passes; otherwise
every channel is checked, failing channels are collected as missing, and the
overall verdict is "no channel missing". -/
def joined_all_force_channels_details (cache : JoinReqCache)
    (env : Int → ChannelEnv) (user_id : Int) (channels : List ForceChannel) :
    Bool × List ForceChannel × List ChannelDetail × JoinReqCache :=
  if channels.isEmpty then (true, [], [], cache)
  else
    let fin := channels.foldl
      (fun acc ch =>
        let r := checkChannel acc.2.2 env user_id ch
        (acc.1 ++ (if r.1.passed then [] else [ch]), acc.2.1 ++ [r.1], r.2))
      (([] : List ForceChannel), ([] : List ChannelDetail), cache)
    (fin.1.isEmpty, fin.1, fin.2.1, fin.2.2)

/-- `_joined_all_force_channels`: the bot owner and registered admins
short-circuit to pass with an empty missing list before any channel or
remote state is consulted. -/
def joined_all_force_channels (owner_id : Int) (admins : Int → Bool)
    (user_id : Int) (cache : JoinReqCache) (env : Int → ChannelEnv)
    (channels : List ForceChannel) : Bool × List ForceChannel :=
  if user_id = owner_id ∨ admins user_id = true then (true, [])
  else
    let d := joined_all_force_channels_details cache env user_id channels
    (d.1, d.2.1)

/-! ## Channel-range batch creation and delivery (bot/handlers.py) -/

inductive BatchCreateResult where
  | errEndBeforeStart
  | errTooLarge
  | errBotNotAdmin
  | created (chbatch_id : Int) (normal_code prem_code : String)
deriving DecidableEq, Repr

/-- The final (`step = end`) stage of `batch_link_input`: validate the range
(`end < start` rejected, more than `MAX_CHANNEL_BATCH_POSTS` posts rejected),
require the bot to be admin in the source channel, then create the channel
batch and the normal/premium links. -/
def batch_link_input_end (cb : ChannelBatchStore) (links : LinkStore)
    (nextId channel_id start_id end_id : Int) (botIsAdmin : Bool)
    (creator now : Int) (normal_code prem_code : String) :
    BatchCreateResult × ChannelBatchStore × LinkStore :=
  if end_id < start_id then (.errEndBeforeStart, cb, links)
  else if end_id - start_id + 1 > MAX_CHANNEL_BATCH_POSTS then
    (.errTooLarge, cb, links)
  else if !botIsAdmin then (.errBotNotAdmin, cb, links)
  else
    let c := MongoDatabase.create_channel_batch cb nextId creator channel_id
      start_id end_id now
    let l1 := Database.create_link links normal_code "chbatch" c.1 "normal"
      creator now
    let l2 := Database.create_link l1 prem_code "chbatch" c.1 "premium"
      creator now
    (.created c.1 normal_code prem_code, c.2, l2)

inductive DeliverResult where
  | batchNotFound
  | botNotAdmin
  | rangeInvalid
  | delivered (message_ids : List Int)
deriving DecidableEq, Repr

/-- The message ids `start_id, start_id+1, ..., end_id` the delivery loop
iterates over. -/
def rangeIds (start_id end_id : Int) : List Int :=
  (List.range (end_id - start_id + 1).toNat).map (fun k => start_id + k)

/-- The `chbatch` branch of `_deliver_by_code`: resolve the stored range,
require bot admin rights in the source channel, re-validate the range size
(`total <= 0 or total > MAX_CHANNEL_BATCH_POSTS` refuses delivery), then
copy each message in the range and finally mark the link used once. -/
def deliver_by_code_chbatch (cb : ChannelBatchStore) (links : LinkStore)
    (code : String) (target_id : Int) (botIsAdmin : Bool) (now : Int) :
    DeliverResult × LinkStore :=
  match MongoDatabase.get_channel_batch cb target_id with
  | none => (.batchNotFound, links)
  | some chb =>
    if !botIsAdmin then (.botNotAdmin, links)
    else
      let total := chb.end_msg_id - chb.start_msg_id + 1
      if total ≤ 0 ∨ total > MAX_CHANNEL_BATCH_POSTS then
        (.rangeInvalid, links)
      else
        (.delivered (rangeIds chb.start_msg_id chb.end_msg_id),
         Database.mark_link_used links code now)

/-! ## Redeem command handler (bot/handlers.py) -/

inductive RedeemOutcome where
  | usageMsg
  | invalidMsg
  | successMsg (untilTs : Int)
deriving DecidableEq, Repr

/-- The `/redeem` handler: with no argument show usage; otherwise redeem the
trimmed token through the backend and — because Python treats both `None`
and `0` as falsy in `if not grant:` — report "Invalid or already-used token"
whenever the returned grant is `None` or `0`, granting entitlement only for
a nonzero grant. -/
def redeem (tokens : TokenStore) (users : UserStore) (args : List String)
    (user_id now : Int) : RedeemOutcome × TokenStore × UserStore :=
  match args with
  | [] => (.usageMsg, tokens, users)
  | a :: _ =>
    let token := strTrim a
    let r := Database.redeem_token tokens token user_id now
    match r.1 with
    | none => (.invalidMsg, r.2, users)
    | some g =>
      if g = 0 then (.invalidMsg, r.2, users)
      else
        let p := Database.add_premium_seconds users user_id g now
        (.successMsg p.1, r.2, p.2)

/-! ## Payment admin callback handler (bot/handlers.py) -/

inductive PayAdminOutcome where
  | notFound
  | alreadyHandledInfo
  | alreadyHandledAlert
  | approvedMsg (untilTs : Int)
  | rejectedMsg
deriving DecidableEq, Repr

/-- `pay_admin_callback` (action already parsed and admin rights already
verified): look up the request; statuses `processed`/`rejected` short-circuit
to an "already handled" info edit; otherwise the guarded approve/reject
conditional update runs, a failed update answers "Already handled", and a
successful approve grants `plan_days * DAY_SECONDS` via
`add_premium_seconds`. -/
def pay_admin_callback (pay : PayStore) (users : UserStore)
    (rid admin_id now : Int) (approveAction : Bool) :
    PayAdminOutcome × PayStore × UserStore :=
  match MongoDatabase.get_payment_request pay rid with
  | none => (.notFound, pay, users)
  | some req =>
    if req.status = "processed" ∨ req.status = "rejected" then
      (.alreadyHandledInfo, pay, users)
    else if approveAction then
      let a := MongoDatabase.approve_payment_request pay rid admin_id now
      if a.1 = false then (.alreadyHandledAlert, a.2, users)
      else
        let g := Database.add_premium_seconds users req.user_id
          (req.plan_days * DAY_SECONDS) now
        (.approvedMsg g.1, a.2, g.2)
    else
      let a := MongoDatabase.reject_payment_request pay rid admin_id now
      if a.1 = false then (.alreadyHandledAlert, a.2, users)
      else (.rejectedMsg, a.2, users)

/-! ## Backend operation surfaces (for the interchangeability claim)

The public persistence operations each backend class defines, and the
operations the core (bot/handlers.py and main.py) invokes on the installed
`db` object. -/

/-- Public methods of `Database` in bot/db.py. -/
def databaseOps : List String :=
  ["init", "upsert_user", "is_premium_active", "add_premium_seconds",
   "set_premium_until", "list_user_ids", "is_admin", "add_admin",
   "remove_admin", "set_setting", "get_setting", "add_force_channel",
   "remove_force_channel", "list_force_channels", "save_file", "get_file",
   "list_recent_files", "create_batch", "get_batch_file_ids", "create_link",
   "get_link", "mark_link_used", "create_token", "redeem_token", "stats"]

/-- Public methods of `MongoDatabase` in bot/db_mongo.py. -/
def mongoDatabaseOps : List String :=
  ["init", "close", "upsert_user", "is_premium_active", "get_premium_until",
   "add_premium_seconds", "set_premium_until", "list_user_ids",
   "list_premium_records", "list_latest_payment_meta", "is_admin",
   "add_admin", "remove_admin", "list_admin_ids", "set_setting",
   "get_setting", "add_force_channel", "remove_force_channel",
   "clear_force_channels", "list_force_channels", "add_force_join_request",
   "has_force_join_request", "save_file", "get_file", "list_recent_files",
   "save_message", "get_message", "create_batch", "get_batch_file_ids",
   "create_channel_batch", "get_channel_batch", "create_link", "get_link",
   "mark_link_used", "create_token", "redeem_token", "stats",
   "create_payment_request", "set_payment_utr", "get_payment_request",
   "get_latest_open_payment_request", "set_payment_ui_messages",
   "clear_payment_ui_messages", "expire_payment_request_if_pending",
   "approve_payment_request", "reject_payment_request",
   "delete_payment_request"]

/-- Persistence operations invoked on the `db` object by bot/handlers.py
and main.py. -/
def coreInvokedOps : List String :=
  ["init", "close", "upsert_user", "is_premium_active", "get_premium_until",
   "add_premium_seconds", "set_premium_until", "list_user_ids",
   "list_premium_records", "list_latest_payment_meta", "is_admin",
   "add_admin", "remove_admin", "list_admin_ids", "set_setting",
   "get_setting", "add_force_channel", "remove_force_channel",
   "clear_force_channels", "list_force_channels", "add_force_join_request",
   "has_force_join_request", "save_file", "get_file", "save_message",
   "get_message", "create_batch", "get_batch_file_ids",
   "create_channel_batch", "get_channel_batch", "create_link", "get_link",
   "mark_link_used", "create_token", "redeem_token", "stats",
   "create_payment_request", "set_payment_utr", "get_payment_request",
   "get_latest_open_payment_request", "set_payment_ui_messages",
   "clear_payment_ui_messages", "expire_payment_request_if_pending",
   "approve_payment_request", "reject_payment_request",
   "delete_payment_request"]

/-! # Theorems -/

/-! ### Token redemption lemmas -/

theorem redeem_token_missing {store : TokenStore} {token : String} (u t : Int)
    (h : store token = none) :
    Database.redeem_token store token u t = (none, store) := by
  simp [Database.redeem_token, h]

theorem redeem_token_already_used {store : TokenStore} {token : String}
    {r : TokenRec} {w : Int} (u t : Int)
    (h : store token = some r) (hw : r.used_by = some w) :
    Database.redeem_token store token u t = (none, store) := by
  simp [Database.redeem_token, h, hw]

theorem redeem_token_free {store : TokenStore} {token : String} {r : TokenRec}
    (u t : Int) (h : store token = some r) (hf : r.used_by = none) :
    Database.redeem_token store token u t =
      (some r.grant_seconds,
       fun s => if s = token then
           some { r with used_by := some u, used_at := some t }
         else store s) := by
  simp [Database.redeem_token, tokensConditionalUpdate, h, hf]

theorem redeem_token_backends_agree (store : TokenStore) (token : String)
    (u t : Int) :
    MongoDatabase.redeem_token store token u t =
      Database.redeem_token store token u t := by
  unfold MongoDatabase.redeem_token Database.redeem_token
    tokensConditionalUpdate
  cases h : store token with
  | none => simp
  | some r =>
    cases hf : r.used_by with
    | none => simp [hf]
    | some w => simp [hf]

theorem runRedeems_missing {store : TokenStore} {token : String}
    (attempts : List (Int × Int)) (h : store token = none) :
    runRedeems token store attempts =
      (List.replicate attempts.length none, store) := by
  induction attempts with
  | nil => simp [runRedeems]
  | cons a rest ih =>
    simp [runRedeems, redeem_token_missing a.1 a.2 h, ih, List.replicate]

theorem runRedeems_already_used {store : TokenStore} {token : String}
    {r : TokenRec} {w : Int} (attempts : List (Int × Int))
    (h : store token = some r) (hw : r.used_by = some w) :
    runRedeems token store attempts =
      (List.replicate attempts.length none, store) := by
  induction attempts with
  | nil => simp [runRedeems]
  | cons a rest ih =>
    simp [runRedeems, redeem_token_already_used a.1 a.2 h hw, ih,
      List.replicate]

/-- Shape of the result list: either no attempt succeeds, or the very
first attempt on a free token succeeds and all later attempts fail. -/
theorem runRedeems_shape (store : TokenStore) (token : String)
    (attempts : List (Int × Int)) :
    (∀ x ∈ (runRedeems token store attempts).1, x = none) ∨
    ∃ g n, (runRedeems token store attempts).1 =
      some g :: List.replicate n none := by
  cases h : store token with
  | none =>
    left
    rw [runRedeems_missing attempts h]
    intro x hx
    exact List.eq_of_mem_replicate hx
  | some r =>
    cases hf : r.used_by with
    | some w =>
      left
      rw [runRedeems_already_used attempts h hf]
      intro x hx
      exact List.eq_of_mem_replicate hx
    | none =>
      cases attempts with
      | nil => left; simp [runRedeems]
      | cons a rest =>
        right
        refine ⟨r.grant_seconds, rest.length, ?_⟩
        have hstep := redeem_token_free a.1 a.2 h hf
        have hnext :
            (fun s => if s = token then
                some { r with used_by := some a.1, used_at := some a.2 }
              else store s) token =
              some { r with used_by := some a.1, used_at := some a.2 } := by
          simp
        have hused : ({ r with used_by := some a.1, used_at := some a.2 } :
            TokenRec).used_by = some a.1 := rfl
        have hrest := @runRedeems_already_used
          (fun s => if s = token then
              some { r with used_by := some a.1, used_at := some a.2 }
            else store s)
          token { r with used_by := some a.1, used_at := some a.2 } a.1
          rest hnext hused
        simp [runRedeems, hstep, hrest]

/-- Splitting a run of redemption attempts at any point. -/
theorem runRedeems_append (store : TokenStore) (token : String)
    (pre suf : List (Int × Int)) :
    runRedeems token store (pre ++ suf) =
      ((runRedeems token store pre).1 ++
         (runRedeems token (runRedeems token store pre).2 suf).1,
       (runRedeems token (runRedeems token store pre).2 suf).2) := by
  induction pre generalizing store with
  | nil => simp [runRedeems]
  | cons a rest ih => simp [runRedeems, ih]

/-- Once `used_by` is set it survives any further redemption attempts. -/
theorem runRedeems_used_by_stable (store : TokenStore) (token : String)
    (attempts : List (Int × Int)) (u : Int)
    (h : (store token).bind TokenRec.used_by = some u) :
    ((runRedeems token store attempts).2 token).bind TokenRec.used_by =
      some u := by
  cases hs : store token with
  | none => rw [hs] at h; simp at h
  | some r =>
    rw [hs] at h
    have h2 : r.used_by = some u := h
    rw [runRedeems_already_used attempts hs h2]
    simp [hs, h2]

/-- C1: token exactly-once.  Among any sequence of redemption attempts on a
token, at most one attempt returns the token's `grant_seconds`; a token
absent from the store yields `None` on every attempt and the store is
untouched; every attempt after a successful one returns `None`; once
`used_by` is set it is never changed by later attempts; and the
document-store backend's `redeem_token` agrees with the relational one. -/
theorem C1_token_exactly_once (store : TokenStore) (token : String)
    (attempts : List (Int × Int)) :
    ((runRedeems token store attempts).1.countP (fun x => x.isSome) ≤ 1)
    ∧ (store token = none →
        (runRedeems token store attempts).1 =
            List.replicate attempts.length none ∧
          (runRedeems token store attempts).2 = store)
    ∧ (∀ pre x suf, (runRedeems token store attempts).1 = pre ++ x :: suf →
        x ≠ none → ∀ y ∈ suf, y = none)
    ∧ (∀ pre suf, attempts = pre ++ suf → ∀ u,
        ((runRedeems token store pre).2 token).bind TokenRec.used_by = some u →
        ((runRedeems token store attempts).2 token).bind TokenRec.used_by =
          some u)
    ∧ (∀ st tk u t, MongoDatabase.redeem_token st tk u t =
        Database.redeem_token st tk u t) := by
  refine ⟨?_, ?_, ?_, ?_, redeem_token_backends_agree⟩
  · rcases runRedeems_shape store token attempts with hall | ⟨g, n, hsh⟩
    · have h0 : (runRedeems token store attempts).1.countP
          (fun x => x.isSome) = 0 := by
        rw [List.countP_eq_zero]
        intro a ha
        simp [hall a ha]
      omega
    · have hrep : (List.replicate n (none : Option Int)).countP
          (fun x => x.isSome) = 0 := by
        rw [List.countP_eq_zero]
        intro a ha
        simp [List.eq_of_mem_replicate ha]
      rw [hsh]
      simp [List.countP_cons, hrep]
  · intro h
    simp [runRedeems_missing attempts h]
  · intro pre x suf heq hx y hy
    rcases runRedeems_shape store token attempts with hall | ⟨g, n, hsh⟩
    · refine absurd (hall x ?_) hx
      rw [heq]
      exact List.mem_append_right pre (List.mem_cons_self x suf)
    · rw [hsh] at heq
      cases pre with
      | nil =>
        simp only [List.nil_append, List.cons.injEq] at heq
        rw [← heq.2] at hy
        exact List.eq_of_mem_replicate hy
      | cons p pre2 =>
        simp only [List.cons_append, List.cons.injEq] at heq
        have hmem : x ∈ pre2 ++ x :: suf :=
          List.mem_append_right pre2 (List.mem_cons_self x suf)
        rw [← heq.2] at hmem
        exact absurd (List.eq_of_mem_replicate hmem) hx
  · intro pre suf heq u hmid
    subst heq
    have := runRedeems_used_by_stable (runRedeems token store pre).2 token suf
      u hmid
    simp [runRedeems_append store token pre suf]
    exact this

/-- Witness for C1 at a concrete store and attempt list. -/
theorem C1_token_exactly_once_witness :
    ((runRedeems "t1" (fun _ => none) [(7, 100), (8, 200)]).1 =
        List.replicate 2 none)
    ∧ (∀ y ∈ ([none] : List (Option Int)), y = none)
    ∧ (((runRedeems "t1"
          (fun s => if s = "t1" then some ⟨1, 0, some 5, some 9, 86400⟩
            else none) [(7, 100), (8, 200)]).2 "t1").bind TokenRec.used_by =
        some 5) := by
  refine ⟨((C1_token_exactly_once (fun _ => none) "t1"
      [(7, 100), (8, 200)]).2.1 rfl).1, ?_, ?_⟩
  · exact (C1_token_exactly_once
      (fun s => if s = "t1" then some ⟨1, 0, none, none, 86400⟩ else none)
      "t1" [(7, 100), (8, 200)]).2.2.1 [] (some 86400) [none] (by decide)
      (by decide)
  · exact (C1_token_exactly_once
      (fun s => if s = "t1" then some ⟨1, 0, some 5, some 9, 86400⟩ else none)
      "t1" [(7, 100), (8, 200)]).2.2.2.1 [(7, 100)] [(8, 200)] rfl 5
      (by decide)

/-! ### Entitlement lemmas -/

theorem add_premium_seconds_backends_agree (store : UserStore)
    (user_id seconds now : Int) :
    MongoDatabase.add_premium_seconds store user_id seconds now =
      Database.add_premium_seconds store user_id seconds now := by
  unfold MongoDatabase.add_premium_seconds Database.add_premium_seconds
    MongoDatabase.get_premium_until
  rfl

/-! ### Payment transition lemmas -/

theorem set_payment_utr_wrong_status {s : PayStore} {i : Int}
    {q : PaymentRequest} (tx : String) (n : Int) (hq : s i = some q)
    (h1 : q.status ≠ "pending") (h2 : q.status ≠ "submitted") :
    MongoDatabase.set_payment_utr s i tx n = (false, s) := by
  unfold MongoDatabase.set_payment_utr
  rw [hq]
  simp [h1, h2]

theorem set_payment_utr_from_pending {s : PayStore} {i : Int}
    {q : PaymentRequest} (tx : String) (n : Int) (hq : s i = some q)
    (hp : q.status = "pending") :
    MongoDatabase.set_payment_utr s i tx n =
      (true, fun j => if j = i then
          some { q with utr_text := some tx, status := "submitted",
                        updated_at := n }
        else s j) := by
  have hne : ({ q with utr_text := some tx, status := "submitted",
                       updated_at := n } : PaymentRequest) ≠ q := by
    intro h
    have h2 : ("submitted" : String) = q.status :=
      congrArg PaymentRequest.status h
    rw [hp] at h2
    exact absurd h2 (by decide)
  unfold MongoDatabase.set_payment_utr
  rw [hq]
  simp [hp, hne]

theorem expire_not_pending {s : PayStore} {i : Int} {q : PaymentRequest}
    (n : Int) (hq : s i = some q) (h : q.status ≠ "pending") :
    MongoDatabase.expire_payment_request_if_pending s i n = (false, s) := by
  unfold MongoDatabase.expire_payment_request_if_pending
  rw [hq]
  simp [h]

theorem expire_with_proof {s : PayStore} {i : Int} {q : PaymentRequest}
    (n : Int) (hq : s i = some q) (h1 : q.utr_text ≠ none)
    (h2 : q.utr_text ≠ some "") :
    MongoDatabase.expire_payment_request_if_pending s i n = (false, s) := by
  unfold MongoDatabase.expire_payment_request_if_pending
  rw [hq]
  simp [h1, h2]

theorem expire_from_pending {s : PayStore} {i : Int} {q : PaymentRequest}
    (n : Int) (hq : s i = some q) (hp : q.status = "pending")
    (hu : q.utr_text = none ∨ q.utr_text = some "") :
    MongoDatabase.expire_payment_request_if_pending s i n =
      (true, fun j => if j = i then
          some { q with status := "expired", updated_at := n } else s j) := by
  have hne : ({ q with status := "expired", updated_at := n } :
      PaymentRequest) ≠ q := by
    intro h
    have h2 : ("expired" : String) = q.status :=
      congrArg PaymentRequest.status h
    rw [hp] at h2
    exact absurd h2 (by decide)
  unfold MongoDatabase.expire_payment_request_if_pending
  rw [hq]
  simp [hp, hu, hne]

/-- C2: payment expiry idempotence.  `expire_payment_request_if_pending`
transitions only a `pending` request without stored proof and reports
whether it changed the record; a request carrying proof text is never
auto-expired; `set_payment_utr` succeeds only from `pending` or
`submitted`; and in either interleaving of a late submit with the timeout
check on the same pending request, exactly one of the two updates modifies
the record while the other is a no-op reporting failure. -/
theorem C2_payment_expiry_idempotence :
    (∀ s i n, (MongoDatabase.expire_payment_request_if_pending s i n).1 =
        true →
      ∃ q, s i = some q ∧ q.status = "pending" ∧
        (q.utr_text = none ∨ q.utr_text = some ""))
    ∧ (∀ s i n (q : PaymentRequest), s i = some q → q.utr_text ≠ none →
        q.utr_text ≠ some "" →
        MongoDatabase.expire_payment_request_if_pending s i n = (false, s))
    ∧ (∀ s i tx n, (MongoDatabase.set_payment_utr s i tx n).1 = true →
        ∃ q, s i = some q ∧ (q.status = "pending" ∨ q.status = "submitted"))
    ∧ (∀ s i n (q : PaymentRequest), s i = some q → q.status = "pending" →
        (q.utr_text = none ∨ q.utr_text = some "") →
        (MongoDatabase.expire_payment_request_if_pending s i n).1 = true ∧
        (MongoDatabase.expire_payment_request_if_pending s i n).2 i =
          some { q with status := "expired", updated_at := n })
    ∧ (∀ s i (q : PaymentRequest) tx t1 t2, s i = some q →
        q.status = "pending" → (q.utr_text = none ∨ q.utr_text = some "") →
        (MongoDatabase.expire_payment_request_if_pending s i t1).1 = true ∧
        MongoDatabase.set_payment_utr
            (MongoDatabase.expire_payment_request_if_pending s i t1).2 i tx
            t2 =
          (false, (MongoDatabase.expire_payment_request_if_pending s i t1).2))
    ∧ (∀ s i (q : PaymentRequest) tx t1 t2, s i = some q →
        q.status = "pending" → (q.utr_text = none ∨ q.utr_text = some "") →
        (MongoDatabase.set_payment_utr s i tx t1).1 = true ∧
        MongoDatabase.expire_payment_request_if_pending
            (MongoDatabase.set_payment_utr s i tx t1).2 i t2 =
          (false, (MongoDatabase.set_payment_utr s i tx t1).2)) := by
  refine ⟨?_, ?_, ?_, ?_, ?_, ?_⟩
  · intro s i n h
    cases hq : s i with
    | none =>
      unfold MongoDatabase.expire_payment_request_if_pending at h
      rw [hq] at h
      simp at h
    | some q =>
      by_cases hc : q.status = "pending" ∧
        (q.utr_text = none ∨ q.utr_text = some "")
      · exact ⟨q, rfl, hc.1, hc.2⟩
      · unfold MongoDatabase.expire_payment_request_if_pending at h
        rw [hq] at h
        simp [hc] at h
  · intro s i n q hq h1 h2
    exact expire_with_proof n hq h1 h2
  · intro s i tx n h
    cases hq : s i with
    | none =>
      unfold MongoDatabase.set_payment_utr at h
      rw [hq] at h
      simp at h
    | some q =>
      by_cases hc : q.status = "pending" ∨ q.status = "submitted"
      · exact ⟨q, rfl, hc⟩
      · unfold MongoDatabase.set_payment_utr at h
        rw [hq] at h
        simp [hc] at h
  · intro s i n q hq hp hu
    rw [expire_from_pending n hq hp hu]
    simp
  · intro s i q tx t1 t2 hq hp hu
    rw [expire_from_pending t1 hq hp hu]
    have hq2 : (fun j => if j = i then
        some { q with status := "expired", updated_at := t1 } else s j) i =
        some { q with status := "expired", updated_at := t1 } := by simp
    refine ⟨rfl, set_payment_utr_wrong_status tx t2 hq2 ?_ ?_⟩
    · intro hcon
      exact absurd (show ("expired" : String) = "pending" from hcon)
        (by decide)
    · intro hcon
      exact absurd (show ("expired" : String) = "submitted" from hcon)
        (by decide)
  · intro s i q tx t1 t2 hq hp hu
    rw [set_payment_utr_from_pending tx t1 hq hp]
    have hq2 : (fun j => if j = i then
        some { q with utr_text := some tx, status := "submitted",
                      updated_at := t1 } else s j) i =
        some { q with utr_text := some tx, status := "submitted",
                      updated_at := t1 } := by simp
    refine ⟨rfl, expire_not_pending t2 hq2 ?_⟩
    intro hcon
    exact absurd (show ("submitted" : String) = "pending" from hcon)
      (by decide)

/-- A concrete freshly-created pending payment request (as built by
`create_payment_request` for plan `d7`, 7 days, 29 rupees at time 0). -/
def samplePendingRequest : PaymentRequest :=
  { id := 1, user_id := 10, plan_key := "d7", plan_days := 7, amount_rs := 29,
    status := "pending", utr_text := none, user_chat_id := none,
    details_msg_id := none, qr_msg_id := none, expires_at := 300,
    created_at := 0, updated_at := 0, processed_by := none,
    processed_at := none }

/-- A payment store holding only `samplePendingRequest` under id 1. -/
def samplePayStore : PayStore :=
  fun i => if i = 1 then some samplePendingRequest else none

/-- Witness for C2: both interleavings on the concrete pending request. -/
theorem C2_payment_expiry_idempotence_witness :
    ((MongoDatabase.expire_payment_request_if_pending samplePayStore 1
        301).1 = true ∧
     MongoDatabase.set_payment_utr
         (MongoDatabase.expire_payment_request_if_pending samplePayStore 1
           301).2 1 "TXN12345" 302 =
       (false,
        (MongoDatabase.expire_payment_request_if_pending samplePayStore 1
          301).2))
    ∧ ((MongoDatabase.set_payment_utr samplePayStore 1 "TXN12345" 250).1 =
        true ∧
       MongoDatabase.expire_payment_request_if_pending
           (MongoDatabase.set_payment_utr samplePayStore 1 "TXN12345" 250).2
           1 301 =
         (false,
          (MongoDatabase.set_payment_utr samplePayStore 1 "TXN12345"
            250).2)) := by
  constructor
  · exact C2_payment_expiry_idempotence.2.2.2.2.1 samplePayStore 1
      samplePendingRequest "TXN12345" 301 302 (by decide) rfl (Or.inl rfl)
  · exact C2_payment_expiry_idempotence.2.2.2.2.2 samplePayStore 1
      samplePendingRequest "TXN12345" 250 301 (by decide) rfl (Or.inl rfl)

/-- C3 counterexample: `get_premium_until` is invoked by the core (the
`/plan` handler reads it) and exposed by `MongoDatabase`, but the relational
`Database` class has no such method — the two backends do not expose the
same operation surface for every operation the core invokes. -/
theorem C3_backend_interchangeability_counterexample :
    "get_premium_until" ∈ coreInvokedOps ∧
    "get_premium_until" ∉ databaseOps ∧
    "get_premium_until" ∈ mongoDatabaseOps ∧
    ¬(∀ op ∈ coreInvokedOps, op ∈ databaseOps ∧ op ∈ mongoDatabaseOps) := by
  refine ⟨by decide, by decide, by decide, ?_⟩
  intro hall
  exact absurd ((hall "get_premium_until" (by decide)).1) (by decide)

/-- C3 amended: the document-store backend exposes every persistence
operation the core invokes, but the relational backend does not (it lacks
the payment-lifecycle, channel-batch, stored-message, join-request-cache,
premium-until and listing operations, and `close`); interchangeability holds
only on the shared conditional-update operations, where the two backends
are observationally equivalent (`redeem_token`, `add_premium_seconds`,
`create_link`, `get_link` agree pointwise). -/
theorem C3_backend_interchangeability_amended :
    (∀ op ∈ coreInvokedOps, op ∈ mongoDatabaseOps)
    ∧ (∀ op ∈ databaseOps, op ∈ mongoDatabaseOps)
    ∧ ¬(∀ op ∈ coreInvokedOps, op ∈ databaseOps)
    ∧ (∀ st tk u t, MongoDatabase.redeem_token st tk u t =
        Database.redeem_token st tk u t)
    ∧ (∀ us uid s n, MongoDatabase.add_premium_seconds us uid s n =
        Database.add_premium_seconds us uid s n)
    ∧ (∀ ls c tt tid ac cb n, MongoDatabase.create_link ls c tt tid ac cb n =
        Database.create_link ls c tt tid ac cb n)
    ∧ (∀ ls c, MongoDatabase.get_link ls c = Database.get_link ls c) := by
  refine ⟨by decide, by decide, ?_, redeem_token_backends_agree,
    add_premium_seconds_backends_agree, ?_, ?_⟩
  · intro hall
    exact absurd (hall "get_premium_until" (by decide)) (by decide)
  · intro ls c tt tid ac cb n
    rfl
  · intro ls c
    rfl

/-- Witness for C3's amended theorem at a concrete operation name. -/
theorem C3_backend_interchangeability_amended_witness :
    "redeem_token" ∈ mongoDatabaseOps ∧ "create_link" ∈ mongoDatabaseOps :=
  ⟨C3_backend_interchangeability_amended.1 "redeem_token" (by decide),
   C3_backend_interchangeability_amended.2.1 "create_link" (by decide)⟩

/-- The returned value of `add_premium_seconds` is
`max(currentUntil, now) + seconds`. -/
theorem add_premium_seconds_fst (store : UserStore) (uid s n : Int) :
    (Database.add_premium_seconds store uid s n).1 =
      max (MongoDatabase.get_premium_until store uid) n + s := by
  unfold Database.add_premium_seconds MongoDatabase.get_premium_until
  rfl

/-- `add_premium_seconds` persists the value it returns: reading the user's
`premium_until` back from the updated store yields the returned expiry. -/
theorem add_premium_seconds_persists (store : UserStore) (uid s n : Int) :
    MongoDatabase.get_premium_until
        ((Database.add_premium_seconds store uid s n).2) uid =
      (Database.add_premium_seconds store uid s n).1 := by
  unfold Database.add_premium_seconds MongoDatabase.get_premium_until
  cases hr : store uid with
  | some r => simp
  | none => simp

/-- C4: entitlement monotonicity.  For `seconds ≥ 0`, `add_premium_seconds`
returns and persists `max(currentUntil, now) + seconds` (with
`currentUntil = 0` for an absent row), so the result is at least
`max(previous premium_until, now)` and an existing active window is never
shortened; the document-store backend computes the same function. -/
theorem C4_entitlement_monotonicity (store : UserStore)
    (user_id seconds now : Int) (hs : 0 ≤ seconds) :
    (Database.add_premium_seconds store user_id seconds now).1 =
      max (MongoDatabase.get_premium_until store user_id) now + seconds
    ∧ MongoDatabase.get_premium_until
          ((Database.add_premium_seconds store user_id seconds now).2)
          user_id =
        (Database.add_premium_seconds store user_id seconds now).1
    ∧ max (MongoDatabase.get_premium_until store user_id) now ≤
        (Database.add_premium_seconds store user_id seconds now).1
    ∧ MongoDatabase.get_premium_until store user_id ≤
        (Database.add_premium_seconds store user_id seconds now).1
    ∧ now ≤ (Database.add_premium_seconds store user_id seconds now).1
    ∧ MongoDatabase.add_premium_seconds store user_id seconds now =
        Database.add_premium_seconds store user_id seconds now := by
  have h1 := le_max_left (MongoDatabase.get_premium_until store user_id) now
  have h2 := le_max_right (MongoDatabase.get_premium_until store user_id) now
  refine ⟨add_premium_seconds_fst store user_id seconds now,
    add_premium_seconds_persists store user_id seconds now, ?_, ?_, ?_,
    add_premium_seconds_backends_agree store user_id seconds now⟩
  · rw [add_premium_seconds_fst]
    linarith
  · rw [add_premium_seconds_fst]
    linarith
  · rw [add_premium_seconds_fst]
    linarith

/-- Witness for C4: a lapsed user (expiry 50) granted 86400 seconds at
time 100 ends with expiry 86500. -/
theorem C4_entitlement_monotonicity_witness :
    (Database.add_premium_seconds
      (fun u => if u = 10 then
          some { first_name := none, username := none, premium_until := 50,
                 created_at := 0, last_seen := 0 }
        else none) 10 86400 100).1 = 86500 := by
  have h := C4_entitlement_monotonicity
    (fun u => if u = 10 then
        some { first_name := none, username := none, premium_until := 50,
               created_at := 0, last_seen := 0 }
      else none) 10 86400 100 (by decide)
  rw [h.1]
  decide

/-! ### Approve / reject lemmas -/

theorem approve_wrong_status {s : PayStore} {i : Int} {q : PaymentRequest}
    (a n : Int) (hq : s i = some q) (h1 : q.status ≠ "submitted")
    (h2 : q.status ≠ "pending") :
    MongoDatabase.approve_payment_request s i a n = (false, s) := by
  unfold MongoDatabase.approve_payment_request
  rw [hq]
  simp [h1, h2]

theorem reject_wrong_status {s : PayStore} {i : Int} {q : PaymentRequest}
    (a n : Int) (hq : s i = some q) (h1 : q.status ≠ "submitted")
    (h2 : q.status ≠ "pending") :
    MongoDatabase.reject_payment_request s i a n = (false, s) := by
  unfold MongoDatabase.reject_payment_request
  rw [hq]
  simp [h1, h2]

theorem approve_from_open {s : PayStore} {i : Int} {q : PaymentRequest}
    (a n : Int) (hq : s i = some q)
    (h : q.status = "submitted" ∨ q.status = "pending") :
    MongoDatabase.approve_payment_request s i a n =
      (true, fun j => if j = i then
          some { q with status := "processed", processed_by := some a,
                        processed_at := some n, updated_at := n }
        else s j) := by
  have hne : ({ q with status := "processed", processed_by := some a,
                       processed_at := some n, updated_at := n } :
      PaymentRequest) ≠ q := by
    intro he
    have h2 := congrArg PaymentRequest.status he
    rcases h with hst | hst
    · rw [hst] at h2
      exact absurd (show ("processed" : String) = "submitted" from h2)
        (by decide)
    · rw [hst] at h2
      exact absurd (show ("processed" : String) = "pending" from h2)
        (by decide)
  rcases h with hst | hst <;>
    simp [MongoDatabase.approve_payment_request, hq, hst, hne]

theorem reject_from_open {s : PayStore} {i : Int} {q : PaymentRequest}
    (a n : Int) (hq : s i = some q)
    (h : q.status = "submitted" ∨ q.status = "pending") :
    MongoDatabase.reject_payment_request s i a n =
      (true, fun j => if j = i then
          some { q with status := "rejected", processed_by := some a,
                        processed_at := some n, updated_at := n }
        else s j) := by
  have hne : ({ q with status := "rejected", processed_by := some a,
                       processed_at := some n, updated_at := n } :
      PaymentRequest) ≠ q := by
    intro he
    have h2 := congrArg PaymentRequest.status he
    rcases h with hst | hst
    · rw [hst] at h2
      exact absurd (show ("rejected" : String) = "submitted" from h2)
        (by decide)
    · rw [hst] at h2
      exact absurd (show ("rejected" : String) = "pending" from h2)
        (by decide)
  rcases h with hst | hst <;>
    simp [MongoDatabase.reject_payment_request, hq, hst, hne]

/-- C5: approve/reject contract.  The two conditional updates succeed only
from `submitted` or `pending` and are no-ops on any other status; the admin
callback applied to a terminal request (`processed`, `rejected`, `expired`)
leaves both stores unchanged and reports already-handled (never an error);
and a successful approve grants exactly `plan_days * DAY_SECONDS` seconds
(with `DAY_SECONDS = 86400`) through `add_premium_seconds`. -/
theorem C5_approve_reject_contract :
    (∀ (s : PayStore) (i a n : Int) (q : PaymentRequest), s i = some q →
      q.status ≠ "submitted" → q.status ≠ "pending" →
      MongoDatabase.approve_payment_request s i a n = (false, s) ∧
      MongoDatabase.reject_payment_request s i a n = (false, s))
    ∧ (∀ (s : PayStore) (i a n : Int),
        (MongoDatabase.approve_payment_request s i a n).1 = true →
        ∃ q, s i = some q ∧
          (q.status = "submitted" ∨ q.status = "pending"))
    ∧ (∀ (s : PayStore) (i a n : Int),
        (MongoDatabase.reject_payment_request s i a n).1 = true →
        ∃ q, s i = some q ∧
          (q.status = "submitted" ∨ q.status = "pending"))
    ∧ (∀ (pay : PayStore) (users : UserStore) (rid adm n : Int) (act : Bool)
        (q : PaymentRequest), pay rid = some q →
        (q.status = "processed" ∨ q.status = "rejected" ∨
          q.status = "expired") →
        (pay_admin_callback pay users rid adm n act).2.1 = pay ∧
        (pay_admin_callback pay users rid adm n act).2.2 = users ∧
        ((pay_admin_callback pay users rid adm n act).1 =
            PayAdminOutcome.alreadyHandledInfo ∨
         (pay_admin_callback pay users rid adm n act).1 =
            PayAdminOutcome.alreadyHandledAlert))
    ∧ (∀ (pay : PayStore) (users : UserStore) (rid adm n : Int)
        (q : PaymentRequest), pay rid = some q →
        (q.status = "submitted" ∨ q.status = "pending") →
        (pay_admin_callback pay users rid adm n true).1 =
          PayAdminOutcome.approvedMsg
            (max (MongoDatabase.get_premium_until users q.user_id) n +
              q.plan_days * DAY_SECONDS) ∧
        (pay_admin_callback pay users rid adm n true).2.1 rid =
          some { q with status := "processed", processed_by := some adm,
                        processed_at := some n, updated_at := n } ∧
        (pay_admin_callback pay users rid adm n true).2.2 =
          (Database.add_premium_seconds users q.user_id
            (q.plan_days * DAY_SECONDS) n).2)
    ∧ DAY_SECONDS = 86400 := by
  refine ⟨?_, ?_, ?_, ?_, ?_, by decide⟩
  · intro s i a n q hq h1 h2
    exact ⟨approve_wrong_status a n hq h1 h2,
      reject_wrong_status a n hq h1 h2⟩
  · intro s i a n h
    cases hq : s i with
    | none =>
      unfold MongoDatabase.approve_payment_request at h
      rw [hq] at h
      simp at h
    | some q =>
      by_cases hc : q.status = "submitted" ∨ q.status = "pending"
      · exact ⟨q, rfl, hc⟩
      · unfold MongoDatabase.approve_payment_request at h
        rw [hq] at h
        simp [hc] at h
  · intro s i a n h
    cases hq : s i with
    | none =>
      unfold MongoDatabase.reject_payment_request at h
      rw [hq] at h
      simp at h
    | some q =>
      by_cases hc : q.status = "submitted" ∨ q.status = "pending"
      · exact ⟨q, rfl, hc⟩
      · unfold MongoDatabase.reject_payment_request at h
        rw [hq] at h
        simp [hc] at h
  · intro pay users rid adm n act q hq hterm
    rcases hterm with hst | hst | hst
    · refine ⟨?_, ?_, ?_⟩ <;>
        simp [pay_admin_callback, MongoDatabase.get_payment_request, hq, hst]
    · refine ⟨?_, ?_, ?_⟩ <;>
        simp [pay_admin_callback, MongoDatabase.get_payment_request, hq, hst]
    · have h1 : q.status ≠ "submitted" := by rw [hst]; decide
      have h2 : q.status ≠ "pending" := by rw [hst]; decide
      cases act with
      | true =>
        refine ⟨?_, ?_, ?_⟩ <;>
          simp [pay_admin_callback, MongoDatabase.get_payment_request, hq,
            hst, approve_wrong_status adm n hq h1 h2]
      | false =>
        refine ⟨?_, ?_, ?_⟩ <;>
          simp [pay_admin_callback, MongoDatabase.get_payment_request, hq,
            hst, reject_wrong_status adm n hq h1 h2]
  · intro pay users rid adm n q hq hopen
    have hni : ¬(q.status = "processed" ∨ q.status = "rejected") := by
      rcases hopen with hst | hst <;> rw [hst] <;> decide
    refine ⟨?_, ?_, ?_⟩ <;>
      simp [pay_admin_callback, MongoDatabase.get_payment_request, hq, hni,
        approve_from_open adm n hq hopen, add_premium_seconds_fst]

/-- A concrete submitted payment request, as `samplePendingRequest` looks
after a proof submission. -/
def sampleSubmittedRequest : PaymentRequest :=
  { samplePendingRequest with status := "submitted",
                              utr_text := some "TXN12345", updated_at := 250 }

/-- A payment store holding only `sampleSubmittedRequest` under id 1. -/
def sampleSubmittedStore : PayStore :=
  fun i => if i = 1 then some sampleSubmittedRequest else none

/-- Witness for C5: approving the concrete submitted request grants
7 * 86400 seconds from time 400, and a second approval on the processed
store is a reported no-op. -/
theorem C5_approve_reject_contract_witness :
    ((pay_admin_callback sampleSubmittedStore (fun _ => none) 1 99 400
        true).1 = PayAdminOutcome.approvedMsg (400 + 7 * 86400))
    ∧ ((pay_admin_callback
          (fun i => if i = 1 then
              some { sampleSubmittedRequest with status := "processed" }
            else none) (fun _ => none) 1 99 401 true).2.1 =
        (fun i => if i = 1 then
            some { sampleSubmittedRequest with status := "processed" }
          else none)) := by
  constructor
  · have h := (C5_approve_reject_contract.2.2.2.2.1 sampleSubmittedStore
      (fun _ => none) 1 99 400 sampleSubmittedRequest (by decide)
      (Or.inl rfl)).1
    rw [h]
    decide
  · exact (C5_approve_reject_contract.2.2.2.1
      (fun i => if i = 1 then
          some { sampleSubmittedRequest with status := "processed" }
        else none) (fun _ => none) 1 99 401 true
      { sampleSubmittedRequest with status := "processed" } (by decide)
      (Or.inl rfl)).1

/-- C6: owner/admin bypass.  For the configured owner or any registered
admin, membership evaluation returns pass with an empty missing list,
whatever the channel set, the join-request cache and the remote transport
behaviour. -/
theorem C6_owner_admin_bypass (owner_id : Int) (admins : Int → Bool)
    (user_id : Int) (cache : JoinReqCache) (env : Int → ChannelEnv)
    (channels : List ForceChannel)
    (h : user_id = owner_id ∨ admins user_id = true) :
    joined_all_force_channels owner_id admins user_id cache env channels =
      (true, []) := by
  unfold joined_all_force_channels
  rw [if_pos h]

/-- Witness for C6: the owner passes even with a required channel whose
remote checks all fail. -/
theorem C6_owner_admin_bypass_witness :
    joined_all_force_channels 1 (fun _ => false) 1 (fun _ _ => false)
      (fun _ => { member1 := Except.error "Timeout",
                  member2 := Except.error "Timeout",
                  requestApi := (false, "api_error:Timeout") })
      [{ channel_id := -100, mode := some "direct", invite_link := none,
         title := none, username := none }] = (true, []) :=
  C6_owner_admin_bypass 1 (fun _ => false) 1 (fun _ _ => false)
    (fun _ => { member1 := Except.error "Timeout",
                member2 := Except.error "Timeout",
                requestApi := (false, "api_error:Timeout") })
    [{ channel_id := -100, mode := some "direct", invite_link := none,
       title := none, username := none }] (Or.inl rfl)

/-- C7: request-mode OR semantics.  For a request-mode channel the
per-channel verdict is exactly `(cached-or-remote join request) OR joined`;
in particular a currently joined user passes with no cached record and an
empty remote join-request lookup. -/
theorem C7_request_mode_or_semantics (cache : JoinReqCache)
    (env : Int → ChannelEnv) (uid : Int) (ch : ForceChannel)
    (hm : effectiveMode ch.mode = "request") :
    (checkChannel cache env uid ch).1.passed =
      ((MongoDatabase.has_force_join_request cache ch.channel_id uid ||
          (env ch.channel_id).requestApi.1) ||
        (checkChannel cache env uid ch).1.joined)
    ∧ (checkChannel cache env uid ch).1.request =
        (MongoDatabase.has_force_join_request cache ch.channel_id uid ||
          (env ch.channel_id).requestApi.1)
    ∧ (checkChannel cache env uid ch).1.joined =
        (resolveMembership (env ch.channel_id)).1
    ∧ (MongoDatabase.has_force_join_request cache ch.channel_id uid = false →
        (env ch.channel_id).requestApi.1 = false →
        (checkChannel cache env uid ch).1.joined = true →
        (checkChannel cache env uid ch).1.passed = true) := by
  refine ⟨?_, ?_, ?_, ?_⟩
  · simp [checkChannel, hm]
  · simp [checkChannel, hm]
  · simp [checkChannel, hm]
  · intro h1 h2 h3
    simp [checkChannel, hm, MongoDatabase.has_force_join_request] at h3 ⊢
    simp [h3]

/-- Witness for C7: a joined user with no cached join request and an empty
remote lookup passes the request-mode channel. -/
theorem C7_request_mode_or_semantics_witness :
    (checkChannel (fun _ _ => false)
      (fun _ => { member1 := Except.ok "member",
                  member2 := Except.ok "member", requestApi := (false, "") })
      42
      { channel_id := -100, mode := some "request", invite_link := none,
        title := none, username := none }).1.passed = true := by
  have h := (C7_request_mode_or_semantics (fun _ _ => false)
    (fun _ => { member1 := Except.ok "member",
                member2 := Except.ok "member", requestApi := (false, "") })
    42
    { channel_id := -100, mode := some "request", invite_link := none,
      title := none, username := none } (by decide)).2.2.2
  exact h rfl rfl (by decide)

/-- C8: channel-range bounds.  At creation a range with `end < start` or
with more than `MAX_CHANNEL_BATCH_POSTS` posts is rejected before any batch
record or link is written; at delivery the stored range is re-validated and
a range with `total ≤ 0` or `total > MAX_CHANNEL_BATCH_POSTS` is refused
with no message emitted and the link not marked used. -/
theorem C8_channel_range_bounds :
    (∀ (cb : ChannelBatchStore) (links : LinkStore)
        (nid cid sid eid : Int) (adm : Bool) (cr n : Int) (nc pc : String),
      eid < sid →
      batch_link_input_end cb links nid cid sid eid adm cr n nc pc =
        (BatchCreateResult.errEndBeforeStart, cb, links))
    ∧ (∀ (cb : ChannelBatchStore) (links : LinkStore)
        (nid cid sid eid : Int) (adm : Bool) (cr n : Int) (nc pc : String),
      ¬(eid < sid) → eid - sid + 1 > MAX_CHANNEL_BATCH_POSTS →
      batch_link_input_end cb links nid cid sid eid adm cr n nc pc =
        (BatchCreateResult.errTooLarge, cb, links))
    ∧ (∀ (cb : ChannelBatchStore) (links : LinkStore) (code : String)
        (tid n : Int) (chb : ChannelBatch),
      cb tid = some chb →
      (chb.end_msg_id - chb.start_msg_id + 1 ≤ 0 ∨
        chb.end_msg_id - chb.start_msg_id + 1 > MAX_CHANNEL_BATCH_POSTS) →
      deliver_by_code_chbatch cb links code tid true n =
        (DeliverResult.rangeInvalid, links)) := by
  refine ⟨?_, ?_, ?_⟩
  · intro cb links nid cid sid eid adm cr n nc pc h
    unfold batch_link_input_end
    rw [if_pos h]
  · intro cb links nid cid sid eid adm cr n nc pc h1 h2
    unfold batch_link_input_end
    rw [if_neg h1, if_pos h2]
  · intro cb links code tid n chb hq hinv
    unfold deliver_by_code_chbatch MongoDatabase.get_channel_batch
    rw [hq]
    simp [hinv]

/-- Witness for C8 at concrete inverted and oversized ranges. -/
theorem C8_channel_range_bounds_witness :
    ((batch_link_input_end (fun _ => none) (fun _ => none) 1 5 10 9 true 2 0
        "nc1" "pc1").1 = BatchCreateResult.errEndBeforeStart)
    ∧ ((batch_link_input_end (fun _ => none) (fun _ => none) 1 5 1 500 true 2
        0 "nc1" "pc1").1 = BatchCreateResult.errTooLarge)
    ∧ ((deliver_by_code_chbatch
        (fun i => if i = 1 then
            some { id := 1, channel_id := 5, start_msg_id := 10,
                   end_msg_id := 9, created_by := 2, created_at := 0 }
          else none)
        (fun _ => none) "cd" 1 true 0).1 = DeliverResult.rangeInvalid) := by
  refine ⟨?_, ?_, ?_⟩
  · rw [C8_channel_range_bounds.1 (fun _ => none) (fun _ => none) 1 5 10 9
      true 2 0 "nc1" "pc1" (by decide)]
  · rw [C8_channel_range_bounds.2.1 (fun _ => none) (fun _ => none) 1 5 1 500
      true 2 0 "nc1" "pc1" (by decide) (by decide)]
  · rw [C8_channel_range_bounds.2.2
      (fun i => if i = 1 then
          some { id := 1, channel_id := 5, start_msg_id := 10,
                 end_msg_id := 9, created_by := 2, created_at := 0 }
        else none)
      (fun _ => none) "cd" 1 0
      { id := 1, channel_id := 5, start_msg_id := 10, end_msg_id := 9,
        created_by := 2, created_at := 0 } (by decide) (by decide)]

/-- C9: link issuance idempotence.  Creating the same code twice never
errors (the operation is total), leaves exactly the record of the latest
call with `last_used_at` reset to null and `uses` reset to 0, `get_link`
returns exactly that record, other codes are untouched, and the second
create alone determines the store; both backends implement the same
upsert. -/
theorem C9_link_idempotence (store : LinkStore) (code tt1 tt2 : String)
    (tid1 : Int) (ac1 : String) (cb1 n1 : Int) (tid2 : Int) (ac2 : String)
    (cb2 n2 : Int) :
    (Database.get_link
        (Database.create_link
          (Database.create_link store code tt1 tid1 ac1 cb1 n1)
          code tt2 tid2 ac2 cb2 n2) code =
      some { code := code, target_type := tt2, target_id := tid2,
             access := ac2, created_by := cb2, created_at := n2,
             last_used_at := none, uses := 0 })
    ∧ (∀ c, c ≠ code →
        Database.create_link
            (Database.create_link store code tt1 tid1 ac1 cb1 n1)
            code tt2 tid2 ac2 cb2 n2 c = store c)
    ∧ (∀ c, Database.create_link
          (Database.create_link store code tt1 tid1 ac1 cb1 n1)
          code tt2 tid2 ac2 cb2 n2 c =
        Database.create_link store code tt2 tid2 ac2 cb2 n2 c)
    ∧ (∀ ls c t i a b n, MongoDatabase.create_link ls c t i a b n =
        Database.create_link ls c t i a b n)
    ∧ (∀ ls c, MongoDatabase.get_link ls c = Database.get_link ls c) := by
  refine ⟨?_, ?_, ?_, ?_, ?_⟩
  · simp [Database.get_link, Database.create_link]
  · intro c hc
    simp [Database.create_link, hc]
  · intro c
    by_cases hc : c = code
    · simp [Database.create_link, hc]
    · simp [Database.create_link, hc]
  · intro ls c t i a b n
    rfl
  · intro ls c
    rfl

/-- Witness for C9 on a concrete store and two create calls. -/
theorem C9_link_idempotence_witness :
    (Database.get_link
        (Database.create_link
          (Database.create_link (fun _ => none) "abc" "file" 1 "normal" 9 10)
          "abc" "batch" 2 "premium" 9 20) "abc" =
      some { code := "abc", target_type := "batch", target_id := 2,
             access := "premium", created_by := 9, created_at := 20,
             last_used_at := none, uses := 0 })
    ∧ (Database.create_link
        (Database.create_link (fun _ => none) "abc" "file" 1 "normal" 9 10)
        "abc" "batch" 2 "premium" 9 20 "zzz" = none) := by
  constructor
  · exact (C9_link_idempotence (fun _ => none) "abc" "file" "batch" 1
      "normal" 9 10 2 "premium" 9 20).1
  · exact (C9_link_idempotence (fun _ => none) "abc" "file" "batch" 1
      "normal" 9 10 2 "premium" 9 20).2.1 "zzz" (by decide)

/-- C10: a zero-grant token is consumed but reported invalid.  For a token
with `grant_seconds = 0` and `used_by` null, the `/redeem` handler first
succeeds in the conditional update (recording the redeemer in `used_by`),
but then — because Python's `if not grant:` treats the returned 0 as falsy —
reports "Invalid or already-used token" and grants no entitlement. -/
theorem C10_zero_grant_token_consumed (tokens : TokenStore)
    (users : UserStore) (a : String) (uid now : Int) (r : TokenRec)
    (h : tokens (strTrim a) = some r) (hu : r.used_by = none)
    (hg : r.grant_seconds = 0) :
    (redeem tokens users [a] uid now).1 = RedeemOutcome.invalidMsg
    ∧ (redeem tokens users [a] uid now).2.1 (strTrim a) =
        some { r with used_by := some uid, used_at := some now }
    ∧ (redeem tokens users [a] uid now).2.2 = users := by
  have hr := redeem_token_free uid now h hu
  refine ⟨?_, ?_, ?_⟩ <;> simp [redeem, hr, hg]

/-- Witness for C10: redeeming the concrete zero-grant token "z0". -/
theorem C10_zero_grant_token_consumed_witness :
    (redeem
        (fun s => if s = strTrim "z0" then some ⟨1, 0, none, none, 0⟩
          else none)
        (fun _ => none) ["z0"] 42 500).1 = RedeemOutcome.invalidMsg
    ∧ (redeem
        (fun s => if s = strTrim "z0" then some ⟨1, 0, none, none, 0⟩
          else none)
        (fun _ => none) ["z0"] 42 500).2.1 (strTrim "z0") =
      some ⟨1, 0, some 42, some 500, 0⟩ := by
  have h := C10_zero_grant_token_consumed
    (fun s => if s = strTrim "z0" then some ⟨1, 0, none, none, 0⟩ else none)
    (fun _ => none) "z0" 42 500 ⟨1, 0, none, none, 0⟩ (by simp) rfl rfl
  exact ⟨h.1, h.2.1⟩
